import Mathlib

/-
Shallow embedding of the mlops-versioning-system repository.

The repository orchestrates a toy MLOps workflow: DVC/git snapshotting
(`src/versioning/version_controller.py`, `src/versioning/dvc_manager.py`),
incident simulation (`src/incident/incident_generator.py`), automated
recovery (`src/incident/recovery_manager.py`) and a training pipeline
(`scripts/train_pipeline.py`).

The file system is modelled as an association list from path strings to
file contents; external commands (git, dvc, mlflow) are modelled by
success oracles and a content cache carried in a `World` record, and every
executed external command is recorded in a trace of `Act` values so that
ordering claims can be stated.
-/

namespace MLOps

/-- File system: association list path → content; later writes shadow earlier
entries, `lookup` finds the most recent write. -/
structure FS where
  files : List (String × String)
deriving Repr, DecidableEq

def FS.lookup (fs : FS) (p : String) : Option String :=
  (fs.files.find? (fun kv => kv.1 == p)).map (fun kv => kv.2)

def FS.write (fs : FS) (p c : String) : FS :=
  ⟨(p, c) :: fs.files⟩

def FS.eraseFile (fs : FS) (p : String) : FS :=
  ⟨fs.files.filter (fun kv => kv.1 != p)⟩

/-- Python `Path(s)`: the empty string normalizes to the current directory. -/
def pathStr (s : String) : String := if s = "" then "." else s

/-- Only the current directory is modelled as a directory; every other path
is a plain file path. -/
def isDir (p : String) : Bool := p = "."

/-- `Path(p).exists()`: directories always exist, files exist when present. -/
def FS.pathExists (fs : FS) (p : String) : Bool :=
  isDir p || (fs.lookup p).isSome

/-- Last component of a path. -/
def baseName (p : String) : String :=
  ((p.splitOn "/").getLast?).getD p

/-- `shutil.copy2(src, dst)`: raises on a directory or missing source;
copying onto an existing directory copies into it. -/
def copy2 (fs : FS) (src dst : String) : Except String FS :=
  if isDir src then .error "IsADirectoryError"
  else
    match fs.lookup src with
    | none => .error "FileNotFoundError"
    | some c =>
      if isDir dst then .ok (fs.write (dst ++ "/" ++ baseName src) c)
      else .ok (fs.write dst c)

/-- `Path(p).unlink()`: raises on a directory or a missing file. -/
def unlink (fs : FS) (p : String) : Except String FS :=
  if isDir p then .error "IsADirectoryError"
  else
    match fs.lookup p with
    | none => .error "FileNotFoundError"
    | some _ => .ok (fs.eraseFile p)

/-- Snapshot metadata as written to `.snapshots/<version>.json` by
`VersionController._save_snapshot_metadata`. -/
structure SnapshotMeta where
  version : String
  timestamp : Nat
  description : String
  git_commit : Option String
  dvc_files : List String
deriving Repr, DecidableEq

/-- Trace entries: one per external command or file-system side effect
executed by the embedded code. -/
inductive Act where
  | dvcAdd (p : String)
  | gitCommit (msg : String)
  | gitRevParse
  | gitTag (t : String)
  | dvcPush
  | saveMeta (v : String)
  | gitCheckout (t : String)
  | dvcPull
  | dvcCheckout (t : String)
  | copyFile (src dst : String)
  | unlinkFile (p : String)
deriving Repr, DecidableEq

/-- World state: the workspace file system plus oracles for the outcomes and
restored contents of the external git/dvc commands, and the directory
listings the snapshot code iterates over. -/
structure World where
  fs : FS
  /-- contents `dvc checkout` restores for each DVC-tracked path -/
  dvcCache : List (String × String)
  /-- success of the `dvc checkout <target>` command -/
  dvcCheckoutOk : String → Bool
  /-- success of `dvc pull` -/
  dvcPullOk : Bool
  /-- success of `dvc push` -/
  dvcPushOk : Bool
  /-- success of `dvc add <path>` -/
  dvcAddOk : String → Bool
  /-- tags reported by `git tag -l`, in listing order -/
  gitTags : List String
  /-- success of the `git tag -l` command -/
  gitTagListOk : Bool
  /-- parsed contents of the `.snapshots/<tag>.json` metadata files -/
  snapshots : List (String × SnapshotMeta)
  /-- current code state (git HEAD) -/
  gitHead : String
  /-- success of `git checkout <tag>` -/
  gitCheckoutOk : String → Bool
  /-- success of `git rev-parse HEAD` -/
  gitRevParseOk : Bool
  /-- commit hash reported by `git rev-parse HEAD` -/
  gitCommitHash : String
  /-- success of `git tag -a <tag>` -/
  gitTagOk : String → Bool
  /-- `paths.raw_data.glob("*.csv")` in iteration order -/
  rawDataCsvs : List String
  /-- processed-data subdirectories with their `*.csv` files -/
  processedDirFiles : List (String × List String)
  /-- trained-model subdirectories with their `*.joblib` files -/
  modelDirFiles : List (String × List String)
  /-- effect of the pandas corruption step on the file content,
  per corruption type -/
  corruptFn : String → String → String
  /-- shape pandas reports for a parsed CSV content -/
  shapeOf : String → Nat × Nat
  /-- whether `pd.read_csv` succeeds on a given content -/
  csvReadOk : String → Bool

/-- Strip a trailing `.dvc` extension from a checkout target. -/
def stripDvcExt (t : String) : String :=
  if t.endsWith ".dvc" then t.dropRight 4 else t

/-- `DVCManager.checkout(target)`: runs `dvc checkout target`, catching
`CalledProcessError`; returns whether the command succeeded. On success the
target's cached content (all of it for target `.`) is restored into the
workspace. -/
def dvcCheckoutCmd (w : World) (target : String) : Bool × World :=
  if w.dvcCheckoutOk target then
    if target = "." then
      (true, { w with fs := w.dvcCache.foldl (fun fs pc => fs.write pc.1 pc.2) w.fs })
    else
      match w.dvcCache.find? (fun pc => pc.1 == stripDvcExt target) with
      | some pc => (true, { w with fs := w.fs.write pc.1 pc.2 })
      | none => (true, w)
  else (false, w)

/-- `VersionController._load_snapshot_metadata`: reads
`.snapshots/<tag>.json`, `none` when the file does not exist. -/
def loadSnapshotMetadata (w : World) (tag : String) : Option SnapshotMeta :=
  (w.snapshots.find? (fun ts => ts.1 == tag)).map (fun ts => ts.2)

/-- `VersionController.list_snapshots`: lists git tags (empty list when the
git command fails), keeping in order the nonempty tags whose metadata file
exists. -/
def listSnapshots (w : World) : List SnapshotMeta :=
  if w.gitTagListOk then
    w.gitTags.filterMap (fun t => if t = "" then none else loadSnapshotMetadata w t)
  else []

/-- `VersionController.restore_snapshot(version_tag, restore_data,
restore_models, restore_code)`: loads the metadata (False when missing),
optionally checks out the git tag (raising on failure, caught → False),
then for data or models runs `dvc pull` followed by `dvc checkout .`,
ignoring their boolean results, and returns True. -/
def restoreSnapshot (w : World) (tag : String)
    (restoreData restoreModels restoreCode : Bool) : Bool × World × List Act :=
  match loadSnapshotMetadata w tag with
  | none => (false, w, [])
  | some _ =>
    if restoreCode then
      if w.gitCheckoutOk tag then
        let w1 := { w with gitHead := tag }
        if restoreData || restoreModels then
          let (_, w2) := dvcCheckoutCmd w1 "."
          (true, w2, [Act.gitCheckout tag, Act.dvcPull, Act.dvcCheckout "."])
        else (true, w1, [Act.gitCheckout tag])
      else (false, w, [Act.gitCheckout tag])
    else
      if restoreData || restoreModels then
        let (_, w2) := dvcCheckoutCmd w "."
        (true, w2, [Act.dvcPull, Act.dvcCheckout "."])
      else (true, w, [])

/-- An incident dictionary: the fields the incident code reads or writes.
Absent dictionary keys are `none`. -/
structure Incident where
  itype : Option String
  subtype : Option String
  timestamp : Option Nat
  affected_file : Option String
  backup_path : Option String
  marker_file : Option String
  status : String
  error : Option String
  original_shape : Option (Nat × Nat)
  corrupted_shape : Option (Nat × Nat)
deriving Repr, DecidableEq

/-- The recovery-result dictionary built by
`RecoveryManager.recover_from_incident`. -/
structure RecoveryResult where
  incident : Incident
  start_time : Nat
  status : String
  actions_taken : List String
  end_time : Option Nat := none
  error : Option String := none
  restored_version : Option String := none
  note : Option String := none
deriving Repr, DecidableEq

/-- The initial recovery-result dictionary of `recover_from_incident`. -/
def initResult (inc : Incident) (t0 : Nat) : RecoveryResult :=
  { incident := inc, start_time := t0, status := "in_progress", actions_taken := [] }

/-- `RecoveryManager._recover_data_corruption`: restore from the incident's
backup path if it exists, else `dvc checkout <affected_file>.dvc`, else a
full restore to the last listed snapshot; raises (as `Except.error`) where
the Python would raise. -/
def recoverDataCorruption (inc : Incident) (rr : RecoveryResult) (w : World) :
    Except String (RecoveryResult × World × List Act) :=
  match inc.affected_file with
  | none => .error "KeyError: affected_file"
  | some afRaw =>
    let af := pathStr afRaw
    let bp := pathStr (inc.backup_path.getD "")
    if w.fs.pathExists bp then
      match copy2 w.fs bp af with
      | .error e => .error e
      | .ok fs1 =>
        .ok ({ rr with actions_taken := rr.actions_taken ++ ["restored_from_backup"],
                       status := "success" },
             { w with fs := fs1 }, [Act.copyFile bp af])
    else
      let (ok1, w1) := dvcCheckoutCmd w (af ++ ".dvc")
      if ok1 then
        .ok ({ rr with actions_taken := rr.actions_taken ++ ["restored_from_dvc"],
                       status := "success" },
             w1, [Act.dvcCheckout (af ++ ".dvc")])
      else
        match (listSnapshots w1).getLast? with
        | some latest =>
          let (ok2, w2, tr2) := restoreSnapshot w1 latest.version true false false
          if ok2 then
            .ok ({ rr with actions_taken := rr.actions_taken ++ ["full_data_restore"],
                           restored_version := some latest.version,
                           status := "success" },
                 w2, Act.dvcCheckout (af ++ ".dvc") :: tr2)
          else
            .ok ({ rr with status := "failed",
                           error := some "All recovery strategies failed" },
                 w2, Act.dvcCheckout (af ++ ".dvc") :: tr2)
        | none =>
          .ok ({ rr with status := "failed",
                         error := some "All recovery strategies failed" },
               w1, [Act.dvcCheckout (af ++ ".dvc")])

/-- `RecoveryManager._recover_model_degradation`: restore from backup if it
exists, else `dvc checkout` only when the `.dvc` file exists; the third
strategy is a stub in the source, so otherwise the result is failed. -/
def recoverModelDegradation (inc : Incident) (rr : RecoveryResult) (w : World) :
    Except String (RecoveryResult × World × List Act) :=
  match inc.affected_file with
  | none => .error "KeyError: affected_file"
  | some afRaw =>
    let af := pathStr afRaw
    let bp := pathStr (inc.backup_path.getD "")
    if w.fs.pathExists bp then
      match copy2 w.fs bp af with
      | .error e => .error e
      | .ok fs1 =>
        .ok ({ rr with actions_taken := rr.actions_taken ++ ["restored_from_backup"],
                       status := "success" },
             { w with fs := fs1 }, [Act.copyFile bp af])
    else
      let dvcFile := af ++ ".dvc"
      if w.fs.pathExists dvcFile then
        let (ok1, w1) := dvcCheckoutCmd w dvcFile
        if ok1 then
          .ok ({ rr with actions_taken := rr.actions_taken ++ ["restored_from_dvc"],
                         status := "success" },
               w1, [Act.dvcCheckout dvcFile])
        else
          .ok ({ rr with status := "failed",
                         error := some "All recovery strategies failed" },
               w1, [Act.dvcCheckout dvcFile])
      else
        .ok ({ rr with status := "failed",
                       error := some "All recovery strategies failed" },
             w, [])

/-- `RecoveryManager._recover_pipeline_failure`: remove the failure marker
when it exists, then always report success. -/
def recoverPipelineFailure (inc : Incident) (rr : RecoveryResult) (w : World) :
    Except String (RecoveryResult × World × List Act) :=
  let mp := pathStr (inc.marker_file.getD "")
  if w.fs.pathExists mp then
    match unlink w.fs mp with
    | .error e => .error e
    | .ok fs1 =>
      .ok ({ rr with actions_taken := rr.actions_taken ++ ["cleared_failure_markers"],
                     status := "success", note := some "Pipeline can be restarted" },
           { w with fs := fs1 }, [Act.unlinkFile mp])
  else
    .ok ({ rr with actions_taken := rr.actions_taken ++ ["cleared_failure_markers"],
                   status := "success", note := some "Pipeline can be restarted" },
         w, [])

/-- Dispatch on `incident.get('type')` inside the try block of
`recover_from_incident`. -/
def recoveryDispatch (inc : Incident) (rr : RecoveryResult) (w : World) :
    Except String (RecoveryResult × World × List Act) :=
  if inc.itype = some "data_corruption" then recoverDataCorruption inc rr w
  else if inc.itype = some "model_degradation" then recoverModelDegradation inc rr w
  else if inc.itype = some "pipeline_failure" then recoverPipelineFailure inc rr w
  else .ok ({ rr with status := "unknown_incident_type" }, w, [])

/-- `RecoveryManager.recover_from_incident(incident, target_version)`:
builds the result dictionary, dispatches on the incident type, stamps the
end time, and converts any raised exception into a failed result. The
`targetVersion` parameter is carried to match the source signature; the
body never reads it. `t0` and `t1` are the two `datetime.now()` samples. -/
def recoverFromIncident (inc : Incident) (targetVersion : Option String)
    (w : World) (t0 t1 : Nat) : RecoveryResult × World × List Act :=
  let rr0 := initResult inc t0
  match recoveryDispatch inc rr0 w with
  | .ok (rr, w1, tr) => ({ rr with end_time := some t1 }, w1, tr)
  | .error e =>
    ({ rr0 with status := "failed", error := some e, end_time := some t1 }, w, [])

/-- `IncidentGenerator` state: the in-memory incident log. -/
structure GenState where
  incident_log : List Incident
deriving Repr, DecidableEq

/-- `IncidentGenerator.simulate_data_corruption(file_path, corruption_type)`:
backs the file up to `<file>.backup`, corrupts it in place, marks the
incident active and appends it to the log; any exception yields a failed,
unlogged incident. -/
def simulateDataCorruption (g : GenState) (w : World) (filePath : String)
    (corruptionType : String) (t : Nat) : Incident × GenState × World :=
  let fp := pathStr filePath
  let inc0 : Incident :=
    { itype := some "data_corruption", subtype := some corruptionType,
      timestamp := some t, affected_file := some fp, backup_path := none,
      marker_file := none, status := "created", error := none,
      original_shape := none, corrupted_shape := none }
  let backupPath := fp ++ ".backup"
  match copy2 w.fs fp backupPath with
  | .error e => ({ inc0 with status := "failed", error := some e }, g, w)
  | .ok fs1 =>
    let inc1 := { inc0 with backup_path := some backupPath }
    match fs1.lookup fp with
    | none =>
      ({ inc1 with status := "failed", error := some "FileNotFoundError" },
       g, { w with fs := fs1 })
    | some content =>
      if w.csvReadOk content then
        let corrupted := w.corruptFn corruptionType content
        let fs2 := fs1.write fp corrupted
        let inc2 := { inc1 with original_shape := some (w.shapeOf content),
                                corrupted_shape := some (w.shapeOf corrupted),
                                status := "active" }
        (inc2, { g with incident_log := g.incident_log ++ [inc2] },
         { w with fs := fs2 })
      else
        ({ inc1 with status := "failed", error := some "ParserError" },
         g, { w with fs := fs1 })

/-- Constant content written by the `corrupt` degradation
(`b'CORRUPTED_DATA' * 1000`). -/
def corruptedModelBytes : String := "CORRUPTED_DATA"

/-- `IncidentGenerator.simulate_model_degradation(model_path,
degradation_type)`: raises when the model is missing, else backs it up and
deletes or overwrites it; the incident is marked active and logged (also
for an unrecognized degradation type, which takes neither branch). -/
def simulateModelDegradation (g : GenState) (w : World) (modelPath : String)
    (degradationType : String) (t : Nat) : Incident × GenState × World :=
  let mp := pathStr modelPath
  let inc0 : Incident :=
    { itype := some "model_degradation", subtype := some degradationType,
      timestamp := some t, affected_file := some mp, backup_path := none,
      marker_file := none, status := "created", error := none,
      original_shape := none, corrupted_shape := none }
  if !(w.fs.pathExists mp) then
    ({ inc0 with status := "failed", error := some ("Model not found: " ++ mp) }, g, w)
  else
    let backupPath := mp ++ ".backup"
    match copy2 w.fs mp backupPath with
    | .error e => ({ inc0 with status := "failed", error := some e }, g, w)
    | .ok fs1 =>
      let inc1 := { inc0 with backup_path := some backupPath }
      if degradationType = "delete" then
        match unlink fs1 mp with
        | .error e =>
          ({ inc1 with status := "failed", error := some e }, g, { w with fs := fs1 })
        | .ok fs2 =>
          let inc2 := { inc1 with status := "active" }
          (inc2, { g with incident_log := g.incident_log ++ [inc2] },
           { w with fs := fs2 })
      else if degradationType = "corrupt" then
        let fs2 := fs1.write mp corruptedModelBytes
        let inc2 := { inc1 with status := "active" }
        (inc2, { g with incident_log := g.incident_log ++ [inc2] },
         { w with fs := fs2 })
      else
        let inc2 := { inc1 with status := "active" }
        (inc2, { g with incident_log := g.incident_log ++ [inc2] },
         { w with fs := fs1 })

/-- `IncidentGenerator.simulate_pipeline_failure(failure_point)`: writes a
marker file and appends an active incident to the log. -/
def simulatePipelineFailure (g : GenState) (w : World) (failurePoint : String)
    (t : Nat) : Incident × GenState × World :=
  let marker := ".incident_markers/pipeline_failure_" ++ failurePoint ++ ".marker"
  let inc1 : Incident :=
    { itype := some "pipeline_failure", subtype := some failurePoint,
      timestamp := some t, affected_file := none, backup_path := none,
      marker_file := some marker, status := "active", error := none,
      original_shape := none, corrupted_shape := none }
  let fs1 := w.fs.write marker ("Pipeline failure at: " ++ failurePoint)
  (inc1, { g with incident_log := g.incident_log ++ [inc1] }, { w with fs := fs1 })

/-- The `dvc add` loop of `create_snapshot`: adds each file, collecting in
`snapshot_info['dvc_files']` the ones whose add succeeded. -/
def addLoop (w : World) (files : List String) (acc : List String)
    (tr : List Act) : List String × List Act :=
  match files with
  | [] => (acc, tr)
  | f :: rest =>
    if w.dvcAddOk f then addLoop w rest (acc ++ [f]) (tr ++ [Act.dvcAdd f])
    else addLoop w rest acc (tr ++ [Act.dvcAdd f])

/-- The files `create_snapshot` iterates over for the data section: raw CSVs
then the CSVs of each processed-data subdirectory. -/
def dataSectionFiles (w : World) : List String :=
  w.rawDataCsvs ++ (w.processedDirFiles.map Prod.snd).flatten

/-- The model files `create_snapshot` iterates over. -/
def modelSectionFiles (w : World) : List String :=
  (w.modelDirFiles.map Prod.snd).flatten

/-- `VersionController.create_snapshot(version_tag, description,
include_data, include_models)`: dvc-adds the data and model files, commits
to git (`check=False`, never raising), reads the commit hash with
`git rev-parse HEAD` (`check=True`: a failure raises and is re-raised by
the outer handler), creates the git tag (failure only logged), pushes to
the DVC remote, and saves the snapshot metadata. -/
def createSnapshot (w : World) (versionTag description : String)
    (includeData includeModels : Bool) (t : Nat) :
    Except String (SnapshotMeta × World × List Act) :=
  let info0 : SnapshotMeta :=
    { version := versionTag, timestamp := t, description := description,
      git_commit := none, dvc_files := [] }
  let (files1, tr1) :=
    if includeData then addLoop w (dataSectionFiles w) [] [] else ([], [])
  let (files2, tr2) :=
    if includeModels then addLoop w (modelSectionFiles w) files1 tr1
    else (files1, tr1)
  let tr3 := tr2 ++ [Act.gitCommit (versionTag ++ ": " ++ description)]
  if w.gitRevParseOk then
    let info1 := { info0 with git_commit := some w.gitCommitHash, dvc_files := files2 }
    let w1 :=
      if w.gitTagOk versionTag then { w with gitTags := w.gitTags ++ [versionTag] }
      else w
    let w2 := { w1 with snapshots := (versionTag, info1) :: w1.snapshots }
    .ok (info1, w2,
         tr3 ++ [Act.gitRevParse, Act.gitTag versionTag, Act.dvcPush,
                 Act.saveMeta versionTag])
  else .error "CalledProcessError: git rev-parse HEAD"

/-- Milestone events of `scripts/train_pipeline.py`; payload-carrying
constructors distinguish repeated operations. -/
inductive PEvent where
  | startRun
  | loadCsv (p : String)
  | logParams
  | initModel
  | trainModel
  | crossValidate
  | logMetrics
  | evaluate
  | classificationReport
  | businessMetrics
  | comparePredictions
  | saveModel
  | logModel
  | dvcAdd (p : String)
  | getRunInfo
  | endRun (status : String)
deriving Repr, DecidableEq

/-- The operation sequence of `train_pipeline.main` inside its try block,
in source order. -/
def pipelineSteps (processedDir modelPath : String) : List PEvent :=
  [ .startRun,
    .loadCsv (processedDir ++ "/X_train.csv"),
    .loadCsv (processedDir ++ "/X_test.csv"),
    .loadCsv (processedDir ++ "/y_train.csv"),
    .loadCsv (processedDir ++ "/y_test.csv"),
    .logParams,
    .initModel,
    .logParams,
    .trainModel,
    .crossValidate,
    .logMetrics,
    .evaluate,
    .logMetrics,
    .classificationReport,
    .businessMetrics,
    .logMetrics,
    .comparePredictions,
    .saveModel,
    .logModel,
    .dvcAdd modelPath,
    .logParams,
    .getRunInfo,
    .endRun "FINISHED" ]

/-- Run the pipeline operations in order; `failAt i` gives the exception the
`i`-th operation raises, if any. Returns the trace of completed operations
and the first raised exception. -/
def runSteps (failAt : Nat → Option String) :
    Nat → List PEvent → List PEvent × Option String
  | _, [] => ([], none)
  | i, e :: rest =>
    match failAt i with
    | some msg => ([], some msg)
    | none =>
      let (tr, err) := runSteps failAt (i + 1) rest
      (e :: tr, err)

/-- `train_pipeline.main`: runs the steps; on an exception the handler ends
the tracker run with status FAILED and re-raises (the returned `Option`
carries the propagated exception). -/
def trainPipelineMain (failAt : Nat → Option String)
    (processedDir modelPath : String) : List PEvent × Option String :=
  match runSteps failAt 0 (pipelineSteps processedDir modelPath) with
  | (tr, none) => (tr, none)
  | (tr, some msg) => (tr ++ [PEvent.endRun "FAILED"], some msg)

/-- `IncidentGenerator.get_incident_log`. -/
def getIncidentLog (g : GenState) : List Incident := g.incident_log

/-- `IncidentGenerator.clear_incident_log`. -/
def clearIncidentLog (g : GenState) : GenState := { g with incident_log := [] }

/-! Helper lemmas about the file-system model. -/

theorem FS.lookup_write (fs : FS) (p c q : String) :
    (fs.write p c).lookup q = if q = p then some c else fs.lookup q := by
  by_cases h : q = p
  · subst h; simp [FS.write, FS.lookup]
  · simp [FS.write, FS.lookup, List.find?_cons, h, Ne.symm h]

theorem recoveryDispatch_preserves (inc : Incident) (rr : RecoveryResult)
    (w : World) (rr' : RecoveryResult) (w' : World) (tr : List Act)
    (h : recoveryDispatch inc rr w = .ok (rr', w', tr)) :
    rr'.incident = rr.incident ∧ rr'.start_time = rr.start_time := by
  unfold recoveryDispatch recoverDataCorruption recoverModelDegradation
    recoverPipelineFailure at h
  simp only [] at h
  repeat' split at h
  all_goals try (injection h; done)
  all_goals injection h with h2
  all_goals (injection h2 with ha hb; subst ha; exact ⟨rfl, rfl⟩)

/-- C8: `recover_from_incident` never reads its `target_version` parameter:
with the incident, the world and the clock fixed, any two values of
`target_version` produce identical results, world states and traces. -/
theorem recover_ignores_target_version (inc : Incident) (tv tv' : Option String)
    (w : World) (t0 t1 : Nat) :
    recoverFromIncident inc tv w t0 t1 = recoverFromIncident inc tv' w t0 t1 := rfl

/-- C4: `recover_from_incident` always returns a recovery result recording
the incident, the start and end times, a status and the actions taken; a
raised internal exception yields status failed with the message under
error; an unhandled incident type yields status unknown_incident_type with
no actions. -/
theorem recover_total_error_handling (inc : Incident) (tv : Option String)
    (w : World) (t0 t1 : Nat) :
    (recoverFromIncident inc tv w t0 t1).1.incident = inc ∧
    (recoverFromIncident inc tv w t0 t1).1.start_time = t0 ∧
    (recoverFromIncident inc tv w t0 t1).1.end_time = some t1 ∧
    (∀ e, recoveryDispatch inc (initResult inc t0) w = .error e →
      (recoverFromIncident inc tv w t0 t1).1.status = "failed" ∧
      (recoverFromIncident inc tv w t0 t1).1.error = some e) ∧
    (inc.itype ≠ some "data_corruption" → inc.itype ≠ some "model_degradation" →
      inc.itype ≠ some "pipeline_failure" →
      (recoverFromIncident inc tv w t0 t1).1.status = "unknown_incident_type" ∧
      (recoverFromIncident inc tv w t0 t1).1.actions_taken = []) := by
  rcases hd : recoveryDispatch inc (initResult inc t0) w with e | ⟨rr, w1, tr⟩
  · refine ⟨?_, ?_, ?_, ?_, ?_⟩
    · simp only [recoverFromIncident, hd]; rfl
    · simp only [recoverFromIncident, hd]; rfl
    · simp only [recoverFromIncident, hd]
    · intro e' he'
      injection he' with hee
      subst hee
      exact ⟨by simp only [recoverFromIncident, hd], by simp only [recoverFromIncident, hd]⟩
    · intro hA hB hC
      unfold recoveryDispatch at hd
      rw [if_neg hA, if_neg hB, if_neg hC] at hd
      injection hd
  · obtain ⟨h1, h2⟩ := recoveryDispatch_preserves inc (initResult inc t0) w rr w1 tr hd
    refine ⟨?_, ?_, ?_, ?_, ?_⟩
    · simp only [recoverFromIncident, hd]; exact h1
    · simp only [recoverFromIncident, hd]; exact h2
    · simp only [recoverFromIncident, hd]
    · intro e' he'
      injection he'
    · intro hA hB hC
      have hd' := hd
      unfold recoveryDispatch at hd
      rw [if_neg hA, if_neg hB, if_neg hC] at hd
      injection hd with h3
      injection h3 with ha hb
      subst ha
      exact ⟨by simp only [recoverFromIncident, hd'], by simp only [recoverFromIncident, hd']; rfl⟩

theorem pathStr_eq (s : String) (h : s ≠ "") : pathStr s = s := if_neg h

theorem isDir_false (p : String) (h : p ≠ ".") : isDir p = false := by
  simp [isDir, h]

theorem pathExists_eq (fs : FS) (p : String) (h : p ≠ ".") :
    fs.pathExists p = (fs.lookup p).isSome := by
  simp [FS.pathExists, isDir_false p h]

theorem dvcCheckoutCmd_fail (w : World) (t : String)
    (h : w.dvcCheckoutOk t = false) : dvcCheckoutCmd w t = (false, w) := by
  simp [dvcCheckoutCmd, h]

theorem dvcCheckoutCmd_ok_fst (w : World) (t : String)
    (h : w.dvcCheckoutOk t = true) : (dvcCheckoutCmd w t).1 = true := by
  unfold dvcCheckoutCmd
  rw [h]
  simp only [if_true]
  split
  · rfl
  · split <;> rfl

theorem copy2_file (fs : FS) (src dst c : String) (hs : src ≠ ".")
    (hd : dst ≠ ".") (hlook : fs.lookup src = some c) :
    copy2 fs src dst = .ok (fs.write dst c) := by
  unfold copy2
  rw [isDir_false src hs, hlook, isDir_false dst hd]
  rfl

theorem recoverDataCorruption_backup (inc : Incident) (rr : RecoveryResult)
    (w : World) (af bp c : String)
    (haf : inc.affected_file = some af) (haf1 : af ≠ "") (haf2 : af ≠ ".")
    (hbp : inc.backup_path = some bp) (hbp1 : bp ≠ "") (hbp2 : bp ≠ ".")
    (hlook : w.fs.lookup bp = some c) :
    recoverDataCorruption inc rr w =
      .ok ({ rr with actions_taken := rr.actions_taken ++ ["restored_from_backup"],
                     status := "success" },
           { w with fs := w.fs.write af c }, [Act.copyFile bp af]) := by
  unfold recoverDataCorruption
  rw [haf]
  simp only [hbp, Option.getD_some, pathStr_eq af haf1, pathStr_eq bp hbp1,
    pathExists_eq w.fs bp hbp2, hlook, Option.isSome_some, if_true,
    copy2_file w.fs bp af c hbp2 haf2 hlook]

theorem recoverDataCorruption_dvc (inc : Incident) (rr : RecoveryResult)
    (w : World) (af bp : String)
    (haf : inc.affected_file = some af) (haf1 : af ≠ "")
    (hbp : inc.backup_path = some bp) (hbp1 : bp ≠ "") (hbp2 : bp ≠ ".")
    (hlook : w.fs.lookup bp = none)
    (hdvc : w.dvcCheckoutOk (af ++ ".dvc") = true) :
    recoverDataCorruption inc rr w =
      .ok ({ rr with actions_taken := rr.actions_taken ++ ["restored_from_dvc"],
                     status := "success" },
           (dvcCheckoutCmd w (af ++ ".dvc")).2, [Act.dvcCheckout (af ++ ".dvc")]) := by
  have hfst := dvcCheckoutCmd_ok_fst w (af ++ ".dvc") hdvc
  unfold recoverDataCorruption
  rw [haf]
  simp only [hbp, Option.getD_some, pathStr_eq af haf1, pathStr_eq bp hbp1,
    pathExists_eq w.fs bp hbp2, hlook, Option.isSome_none, Bool.false_eq_true,
    if_false]
  rcases hcmd : dvcCheckoutCmd w (af ++ ".dvc") with ⟨ok1, w1⟩
  rw [hcmd] at hfst
  simp only at hfst
  subst hfst
  simp only [if_true]

theorem recoverDataCorruption_noSnap (inc : Incident) (rr : RecoveryResult)
    (w : World) (af bp : String)
    (haf : inc.affected_file = some af) (haf1 : af ≠ "")
    (hbp : inc.backup_path = some bp) (hbp1 : bp ≠ "") (hbp2 : bp ≠ ".")
    (hlook : w.fs.lookup bp = none)
    (hdvc : w.dvcCheckoutOk (af ++ ".dvc") = false)
    (hlast : (listSnapshots w).getLast? = none) :
    recoverDataCorruption inc rr w =
      .ok ({ rr with status := "failed",
                     error := some "All recovery strategies failed" },
           w, [Act.dvcCheckout (af ++ ".dvc")]) := by
  unfold recoverDataCorruption
  rw [haf]
  simp only [hbp, Option.getD_some, pathStr_eq af haf1, pathStr_eq bp hbp1,
    pathExists_eq w.fs bp hbp2, hlook, Option.isSome_none, Bool.false_eq_true,
    if_false, dvcCheckoutCmd_fail w _ hdvc, hlast]

theorem recoverDataCorruption_snapshot (inc : Incident) (rr : RecoveryResult)
    (w : World) (af bp : String) (latest : SnapshotMeta)
    (haf : inc.affected_file = some af) (haf1 : af ≠ "")
    (hbp : inc.backup_path = some bp) (hbp1 : bp ≠ "") (hbp2 : bp ≠ ".")
    (hlook : w.fs.lookup bp = none)
    (hdvc : w.dvcCheckoutOk (af ++ ".dvc") = false)
    (hlast : (listSnapshots w).getLast? = some latest) :
    recoverDataCorruption inc rr w =
      (if (restoreSnapshot w latest.version true false false).1 then
        .ok ({ rr with actions_taken := rr.actions_taken ++ ["full_data_restore"],
                       restored_version := some latest.version,
                       status := "success" },
             (restoreSnapshot w latest.version true false false).2.1,
             Act.dvcCheckout (af ++ ".dvc") ::
               (restoreSnapshot w latest.version true false false).2.2)
      else
        .ok ({ rr with status := "failed",
                       error := some "All recovery strategies failed" },
             (restoreSnapshot w latest.version true false false).2.1,
             Act.dvcCheckout (af ++ ".dvc") ::
               (restoreSnapshot w latest.version true false false).2.2)) := by
  unfold recoverDataCorruption
  rw [haf]
  simp only [hbp, Option.getD_some, pathStr_eq af haf1, pathStr_eq bp hbp1,
    pathExists_eq w.fs bp hbp2, hlook, Option.isSome_none, Bool.false_eq_true,
    if_false, dvcCheckoutCmd_fail w _ hdvc, hlast]

theorem recoveryDispatch_data (inc : Incident) (rr : RecoveryResult) (w : World)
    (hty : inc.itype = some "data_corruption") :
    recoveryDispatch inc rr w = recoverDataCorruption inc rr w := by
  simp [recoveryDispatch, hty]

/-- C1: for a data_corruption incident with an affected file and a backup
path, the recovery strategies run in the fixed order backup file → DVC
checkout of the `.dvc` file → restore of the last listed snapshot; the
first success stops the chain, records exactly its action name and sets
status success; when the backup is missing, the checkout fails and no
snapshot exists (or the snapshot restore fails), the status is failed with
error message 'All recovery strategies failed'. -/
theorem data_corruption_recovery_chain (inc : Incident) (tv : Option String)
    (w : World) (t0 t1 : Nat) (af bp : String)
    (hty : inc.itype = some "data_corruption")
    (haf : inc.affected_file = some af) (haf1 : af ≠ "") (haf2 : af ≠ ".")
    (hbp : inc.backup_path = some bp) (hbp1 : bp ≠ "") (hbp2 : bp ≠ ".") :
    (∀ c, w.fs.lookup bp = some c →
      (recoverFromIncident inc tv w t0 t1).1.status = "success" ∧
      (recoverFromIncident inc tv w t0 t1).1.actions_taken = ["restored_from_backup"] ∧
      (recoverFromIncident inc tv w t0 t1).2.2 = [Act.copyFile bp af]) ∧
    (w.fs.lookup bp = none → w.dvcCheckoutOk (af ++ ".dvc") = true →
      (recoverFromIncident inc tv w t0 t1).1.status = "success" ∧
      (recoverFromIncident inc tv w t0 t1).1.actions_taken = ["restored_from_dvc"] ∧
      (recoverFromIncident inc tv w t0 t1).2.2 = [Act.dvcCheckout (af ++ ".dvc")]) ∧
    (∀ latest, w.fs.lookup bp = none → w.dvcCheckoutOk (af ++ ".dvc") = false →
      (listSnapshots w).getLast? = some latest →
      (restoreSnapshot w latest.version true false false).1 = true →
      (recoverFromIncident inc tv w t0 t1).1.status = "success" ∧
      (recoverFromIncident inc tv w t0 t1).1.actions_taken = ["full_data_restore"] ∧
      (recoverFromIncident inc tv w t0 t1).1.restored_version = some latest.version) ∧
    (w.fs.lookup bp = none → w.dvcCheckoutOk (af ++ ".dvc") = false →
      ((listSnapshots w).getLast? = none ∨
        (∃ latest, (listSnapshots w).getLast? = some latest ∧
          (restoreSnapshot w latest.version true false false).1 = false)) →
      (recoverFromIncident inc tv w t0 t1).1.status = "failed" ∧
      (recoverFromIncident inc tv w t0 t1).1.error = some "All recovery strategies failed" ∧
      (recoverFromIncident inc tv w t0 t1).1.actions_taken = []) := by
  have hdisp := recoveryDispatch_data inc (initResult inc t0) w hty
  refine ⟨?_, ?_, ?_, ?_⟩
  · intro c hc
    have hdd := recoverDataCorruption_backup inc (initResult inc t0) w af bp c
      haf haf1 haf2 hbp hbp1 hbp2 hc
    rw [hdd] at hdisp
    simp only [recoverFromIncident, hdisp]
    simp [initResult]
  · intro hc hdvc
    have hdd := recoverDataCorruption_dvc inc (initResult inc t0) w af bp
      haf haf1 hbp hbp1 hbp2 hc hdvc
    rw [hdd] at hdisp
    simp only [recoverFromIncident, hdisp]
    simp [initResult]
  · intro latest hc hdvc hlast hrest
    have hdd := recoverDataCorruption_snapshot inc (initResult inc t0) w af bp latest
      haf haf1 hbp hbp1 hbp2 hc hdvc hlast
    rw [hrest] at hdd
    simp only [eq_self_iff_true, if_true] at hdd
    rw [hdd] at hdisp
    simp only [recoverFromIncident, hdisp]
    simp [initResult]
  · intro hc hdvc hor
    rcases hor with hnone | ⟨latest, hsome, hfail⟩
    · have hdd := recoverDataCorruption_noSnap inc (initResult inc t0) w af bp
        haf haf1 hbp hbp1 hbp2 hc hdvc hnone
      rw [hdd] at hdisp
      simp only [recoverFromIncident, hdisp]
      simp [initResult]
    · have hdd := recoverDataCorruption_snapshot inc (initResult inc t0) w af bp latest
        haf haf1 hbp hbp1 hbp2 hc hdvc hsome
      rw [hfail] at hdd
      simp only [Bool.false_eq_true, if_false] at hdd
      rw [hdd] at hdisp
      simp only [recoverFromIncident, hdisp]
      simp [initResult]

theorem pathStr_ne_empty (s : String) : pathStr s ≠ "" := by
  unfold pathStr
  split
  · decide
  · assumption

theorem append_backup_ne_dot (s : String) : s ++ ".backup" ≠ "." := by
  intro h
  have hl := congrArg String.length h
  rw [String.length_append] at hl
  rw [show (".backup" : String).length = 7 from rfl,
      show ("." : String).length = 1 from rfl] at hl
  omega

theorem append_backup_ne_self (s : String) : s ++ ".backup" ≠ s := by
  intro h
  have hl := congrArg String.length h
  rw [String.length_append] at hl
  rw [show (".backup" : String).length = 7 from rfl] at hl
  omega

theorem simulateDataCorruption_active (g : GenState) (w : World)
    (filePath ct : String) (t : Nat)
    (hact : (simulateDataCorruption g w filePath ct t).1.status = "active") :
    ∃ c, isDir (pathStr filePath) = false ∧
      w.fs.lookup (pathStr filePath) = some c ∧
      w.csvReadOk c = true ∧
      (simulateDataCorruption g w filePath ct t).1 =
        { itype := some "data_corruption", subtype := some ct, timestamp := some t,
          affected_file := some (pathStr filePath),
          backup_path := some (pathStr filePath ++ ".backup"), marker_file := none,
          status := "active", error := none,
          original_shape := some (w.shapeOf c),
          corrupted_shape := some (w.shapeOf (w.corruptFn ct c)) } ∧
      (simulateDataCorruption g w filePath ct t).2.1.incident_log =
        g.incident_log ++ [(simulateDataCorruption g w filePath ct t).1] ∧
      (simulateDataCorruption g w filePath ct t).2.2.fs =
        (w.fs.write (pathStr filePath ++ ".backup") c).write (pathStr filePath)
          (w.corruptFn ct c) := by
  cases hd : isDir (pathStr filePath) with
  | true =>
    exfalso
    have hcopy : copy2 w.fs (pathStr filePath) (pathStr filePath ++ ".backup") =
        .error "IsADirectoryError" := by
      unfold copy2; rw [hd]; rfl
    simp [simulateDataCorruption, hcopy] at hact
  | false =>
    rcases hw : w.fs.lookup (pathStr filePath) with _ | c
    · exfalso
      have hcopy : copy2 w.fs (pathStr filePath) (pathStr filePath ++ ".backup") =
          .error "FileNotFoundError" := by
        unfold copy2; rw [hd, hw]; simp
      simp [simulateDataCorruption, hcopy] at hact
    · have hcopy : copy2 w.fs (pathStr filePath) (pathStr filePath ++ ".backup") =
          .ok (w.fs.write (pathStr filePath ++ ".backup") c) :=
        copy2_file w.fs (pathStr filePath) (pathStr filePath ++ ".backup") c
          (by intro h; rw [h] at hd; exact absurd hd (by simp [isDir]))
          (append_backup_ne_dot (pathStr filePath)) hw
      have hlk : (w.fs.write (pathStr filePath ++ ".backup") c).lookup (pathStr filePath) =
          some c := by
        rw [FS.lookup_write]
        rw [if_neg (fun h => append_backup_ne_self (pathStr filePath) h.symm)]
        exact hw
      cases hcsv : w.csvReadOk c with
      | false =>
        exfalso
        simp [simulateDataCorruption, hcopy, hlk, hcsv] at hact
      | true =>
        refine ⟨c, rfl, rfl, hcsv, ?_, ?_, ?_⟩ <;>
          simp [simulateDataCorruption, hcopy, hlk, hcsv]

theorem append_backup_ne_empty (s : String) : s ++ ".backup" ≠ "" := by
  intro h
  have hl := congrArg String.length h
  rw [String.length_append] at hl
  rw [show (".backup" : String).length = 7 from rfl,
      show ("" : String).length = 0 from rfl] at hl
  omega

theorem ne_dot_of_isDir_false (p : String) (h : isDir p = false) : p ≠ "." := by
  intro he
  rw [he] at h
  exact absurd h (by simp [isDir])

/-- C5: when a data-corruption simulation reports an active incident,
running recovery on that incident in the post-corruption world restores the
affected file to exactly its pre-corruption content: the backup written
before corrupting is copied back by the first recovery strategy. -/
theorem corruption_then_recovery_roundtrip (g : GenState) (w : World)
    (filePath ct : String) (t t0 t1 : Nat) (tv : Option String)
    (hact : (simulateDataCorruption g w filePath ct t).1.status = "active") :
    ((recoverFromIncident (simulateDataCorruption g w filePath ct t).1 tv
        (simulateDataCorruption g w filePath ct t).2.2 t0 t1).2.1).fs.lookup
      (pathStr filePath) = w.fs.lookup (pathStr filePath) := by
  obtain ⟨c, hdir, hw, hcsv, hinc, hlog, hfs⟩ :=
    simulateDataCorruption_active g w filePath ct t hact
  have haf2 := ne_dot_of_isDir_false (pathStr filePath) hdir
  have hlook : (simulateDataCorruption g w filePath ct t).2.2.fs.lookup
      (pathStr filePath ++ ".backup") = some c := by
    rw [hfs, FS.lookup_write,
      if_neg (fun h => append_backup_ne_self (pathStr filePath) h),
      FS.lookup_write, if_pos rfl]
  have hdd := recoverDataCorruption_backup
    (simulateDataCorruption g w filePath ct t).1
    (initResult (simulateDataCorruption g w filePath ct t).1 t0)
    (simulateDataCorruption g w filePath ct t).2.2
    (pathStr filePath) (pathStr filePath ++ ".backup") c
    (by rw [hinc]) (pathStr_ne_empty filePath) haf2
    (by rw [hinc]) (append_backup_ne_empty (pathStr filePath))
    (append_backup_ne_dot (pathStr filePath)) hlook
  have hdisp := recoveryDispatch_data
    (simulateDataCorruption g w filePath ct t).1
    (initResult (simulateDataCorruption g w filePath ct t).1 t0)
    (simulateDataCorruption g w filePath ct t).2.2 (by rw [hinc])
  rw [hdd] at hdisp
  simp only [recoverFromIncident, hdisp]
  rw [FS.lookup_write, if_pos rfl, hw]

theorem simulateDataCorruption_log (g : GenState) (w : World) (fp ct : String)
    (t : Nat) :
    ((simulateDataCorruption g w fp ct t).1.status = "active" ∨
      (simulateDataCorruption g w fp ct t).1.status = "failed") ∧
    ((simulateDataCorruption g w fp ct t).1.status = "active" →
      (simulateDataCorruption g w fp ct t).2.1.incident_log =
        g.incident_log ++ [(simulateDataCorruption g w fp ct t).1]) ∧
    ((simulateDataCorruption g w fp ct t).1.status = "failed" →
      (simulateDataCorruption g w fp ct t).2.1 = g) := by
  unfold simulateDataCorruption
  simp only []
  split
  · exact ⟨Or.inr rfl, fun h => by simp at h, fun _ => rfl⟩
  · split
    · exact ⟨Or.inr rfl, fun h => by simp at h, fun _ => rfl⟩
    · split
      · exact ⟨Or.inl rfl, fun _ => rfl, fun h => by simp at h⟩
      · exact ⟨Or.inr rfl, fun h => by simp at h, fun _ => rfl⟩

theorem simulateModelDegradation_log (g : GenState) (w : World) (mp dt : String)
    (t : Nat) :
    ((simulateModelDegradation g w mp dt t).1.status = "active" ∨
      (simulateModelDegradation g w mp dt t).1.status = "failed") ∧
    ((simulateModelDegradation g w mp dt t).1.status = "active" →
      (simulateModelDegradation g w mp dt t).2.1.incident_log =
        g.incident_log ++ [(simulateModelDegradation g w mp dt t).1]) ∧
    ((simulateModelDegradation g w mp dt t).1.status = "failed" →
      (simulateModelDegradation g w mp dt t).2.1 = g) := by
  unfold simulateModelDegradation
  simp only []
  split
  · exact ⟨Or.inr rfl, fun h => by simp at h, fun _ => rfl⟩
  · split
    · exact ⟨Or.inr rfl, fun h => by simp at h, fun _ => rfl⟩
    · split
      · split
        · exact ⟨Or.inr rfl, fun h => by simp at h, fun _ => rfl⟩
        · exact ⟨Or.inl rfl, fun _ => rfl, fun h => by simp at h⟩
      · split
        · exact ⟨Or.inl rfl, fun _ => rfl, fun h => by simp at h⟩
        · exact ⟨Or.inl rfl, fun _ => rfl, fun h => by simp at h⟩

theorem simulatePipelineFailure_log (g : GenState) (w : World)
    (fpoint : String) (t : Nat) :
    (simulatePipelineFailure g w fpoint t).1.status = "active" ∧
    (simulatePipelineFailure g w fpoint t).2.1.incident_log =
      g.incident_log ++ [(simulatePipelineFailure g w fpoint t).1] :=
  ⟨rfl, rfl⟩

theorem log_invariant_append (l : List Incident) (inc : Incident)
    (hinv : ∀ i ∈ l, i.status = "active") (hinc : inc.status = "active") :
    ∀ i ∈ l ++ [inc], i.status = "active" := by
  intro i hi
  rcases List.mem_append.mp hi with h | h
  · exact hinv i h
  · rw [List.mem_singleton.mp h]
    exact hinc

/-- C10: every entry of the incident log has status active, preserved by
every operation: the corruption and degradation simulators append only an
incident marked active (failed incidents leave the log and state
untouched), the pipeline-failure simulator always appends an active
incident, get_incident_log returns the log in creation order, and
clear_incident_log empties it. -/
theorem incident_log_active_invariant (g : GenState) (w : World)
    (fp ct mp dt fpoint : String) (t : Nat)
    (hinv : ∀ i ∈ g.incident_log, i.status = "active") :
    ((∀ i ∈ (simulateDataCorruption g w fp ct t).2.1.incident_log,
        i.status = "active") ∧
      ((simulateDataCorruption g w fp ct t).1.status = "active" →
        (simulateDataCorruption g w fp ct t).2.1.incident_log =
          g.incident_log ++ [(simulateDataCorruption g w fp ct t).1]) ∧
      ((simulateDataCorruption g w fp ct t).1.status = "failed" →
        (simulateDataCorruption g w fp ct t).2.1 = g)) ∧
    ((∀ i ∈ (simulateModelDegradation g w mp dt t).2.1.incident_log,
        i.status = "active") ∧
      ((simulateModelDegradation g w mp dt t).1.status = "active" →
        (simulateModelDegradation g w mp dt t).2.1.incident_log =
          g.incident_log ++ [(simulateModelDegradation g w mp dt t).1]) ∧
      ((simulateModelDegradation g w mp dt t).1.status = "failed" →
        (simulateModelDegradation g w mp dt t).2.1 = g)) ∧
    ((simulatePipelineFailure g w fpoint t).1.status = "active" ∧
      (simulatePipelineFailure g w fpoint t).2.1.incident_log =
        g.incident_log ++ [(simulatePipelineFailure g w fpoint t).1] ∧
      (∀ i ∈ (simulatePipelineFailure g w fpoint t).2.1.incident_log,
        i.status = "active")) ∧
    getIncidentLog g = g.incident_log ∧
    (clearIncidentLog g).incident_log = [] := by
  obtain ⟨hdc1, hdc2, hdc3⟩ := simulateDataCorruption_log g w fp ct t
  obtain ⟨hmd1, hmd2, hmd3⟩ := simulateModelDegradation_log g w mp dt t
  obtain ⟨hpf1, hpf2⟩ := simulatePipelineFailure_log g w fpoint t
  refine ⟨⟨?_, hdc2, hdc3⟩, ⟨?_, hmd2, hmd3⟩, ⟨hpf1, hpf2, ?_⟩, rfl, rfl⟩
  · rcases hdc1 with h | h
    · rw [hdc2 h]
      exact log_invariant_append _ _ hinv h
    · rw [hdc3 h]
      exact hinv
  · rcases hmd1 with h | h
    · rw [hmd2 h]
      exact log_invariant_append _ _ hinv h
    · rw [hmd3 h]
      exact hinv
  · rw [hpf2]
    exact log_invariant_append _ _ hinv hpf1

theorem append_dvc_ne_dot (s : String) : s ++ ".dvc" ≠ "." := by
  intro h
  have hl := congrArg String.length h
  rw [String.length_append] at hl
  rw [show (".dvc" : String).length = 4 from rfl,
      show ("." : String).length = 1 from rfl] at hl
  omega

theorem recoveryDispatch_model (inc : Incident) (rr : RecoveryResult) (w : World)
    (hty : inc.itype = some "model_degradation") :
    recoveryDispatch inc rr w = recoverModelDegradation inc rr w := by
  simp [recoveryDispatch, hty]

theorem recoveryDispatch_pipeline (inc : Incident) (rr : RecoveryResult) (w : World)
    (hty : inc.itype = some "pipeline_failure") :
    recoveryDispatch inc rr w = recoverPipelineFailure inc rr w := by
  simp [recoveryDispatch, hty]

theorem recoverModelDegradation_fail (inc : Incident) (rr : RecoveryResult)
    (w : World) (af bp : String)
    (haf : inc.affected_file = some af) (haf1 : af ≠ "")
    (hbp : inc.backup_path = some bp) (hbp1 : bp ≠ "") (hbp2 : bp ≠ ".")
    (hlook : w.fs.lookup bp = none)
    (hdvc : w.fs.lookup (af ++ ".dvc") = none) :
    recoverModelDegradation inc rr w =
      .ok ({ rr with status := "failed",
                     error := some "All recovery strategies failed" }, w, []) := by
  unfold recoverModelDegradation
  rw [haf]
  simp only [hbp, Option.getD_some, pathStr_eq af haf1, pathStr_eq bp hbp1,
    pathExists_eq w.fs bp hbp2, hlook, Option.isSome_none, Bool.false_eq_true,
    if_false, pathExists_eq w.fs (af ++ ".dvc") (append_dvc_ne_dot af), hdvc]

theorem recoverPipelineFailure_success (inc : Incident) (rr : RecoveryResult)
    (w : World) (mk : String)
    (hmk : inc.marker_file = some mk) (hmk1 : mk ≠ "") (hmk2 : mk ≠ ".") :
    ∃ w' tr, recoverPipelineFailure inc rr w =
      .ok ({ rr with actions_taken := rr.actions_taken ++ ["cleared_failure_markers"],
                     status := "success", note := some "Pipeline can be restarted" },
           w', tr) := by
  unfold recoverPipelineFailure
  rw [hmk]
  simp only [Option.getD_some, pathStr_eq mk hmk1, pathExists_eq w.fs mk hmk2]
  rcases hl : w.fs.lookup mk with _ | c
  · simp only [Option.isSome_none, Bool.false_eq_true, if_false]
    exact ⟨w, [], rfl⟩
  · simp only [Option.isSome_some, if_true]
    unfold unlink
    rw [isDir_false mk hmk2, hl]
    exact ⟨_, _, rfl⟩

/-- C2 amended: the three incident types do not share the three-tier chain.
Model-degradation recovery tries the backup, then a DVC checkout only when
the `.dvc` file exists, and otherwise fails without attempting any snapshot
restore (no command is run, the world is unchanged, whatever snapshots
exist); pipeline-failure recovery merely clears the failure marker and
always reports success. Only data corruption ends in a snapshot restore. -/
theorem recovery_chain_only_for_data_corruption (inc : Incident)
    (tv : Option String) (w : World) (t0 t1 : Nat) (af bp : String)
    (hty : inc.itype = some "model_degradation")
    (haf : inc.affected_file = some af) (haf1 : af ≠ "")
    (hbp : inc.backup_path = some bp) (hbp1 : bp ≠ "") (hbp2 : bp ≠ ".")
    (hlook : w.fs.lookup bp = none)
    (hdvc : w.fs.lookup (af ++ ".dvc") = none) :
    ((recoverFromIncident inc tv w t0 t1).1.status = "failed" ∧
      (recoverFromIncident inc tv w t0 t1).1.error =
        some "All recovery strategies failed" ∧
      (recoverFromIncident inc tv w t0 t1).2.2 = [] ∧
      (recoverFromIncident inc tv w t0 t1).2.1 = w) ∧
    (∀ inc2 mk, inc2.itype = some "pipeline_failure" →
      inc2.marker_file = some mk → mk ≠ "" → mk ≠ "." →
      (recoverFromIncident inc2 tv w t0 t1).1.status = "success" ∧
      (recoverFromIncident inc2 tv w t0 t1).1.actions_taken =
        ["cleared_failure_markers"]) := by
  constructor
  · have hdd := recoverModelDegradation_fail inc (initResult inc t0) w af bp
      haf haf1 hbp hbp1 hbp2 hlook hdvc
    have hdisp := recoveryDispatch_model inc (initResult inc t0) w hty
    rw [hdd] at hdisp
    simp only [recoverFromIncident, hdisp]
    simp [initResult]
  · intro inc2 mk hty2 hmk hmk1 hmk2
    obtain ⟨w', tr, hpd⟩ := recoverPipelineFailure_success inc2
      (initResult inc2 t0) w mk hmk hmk1 hmk2
    have hdisp := recoveryDispatch_pipeline inc2 (initResult inc2 t0) w hty2
    rw [hpd] at hdisp
    simp only [recoverFromIncident, hdisp]
    simp [initResult]

/-- Empty file system, used to build concrete worlds. -/
def emptyFS : FS := ⟨[]⟩

/-- A baseline concrete world for counterexamples and witnesses. -/
def baseWorld : World :=
  { fs := emptyFS, dvcCache := [], dvcCheckoutOk := fun _ => false,
    dvcPullOk := false, dvcPushOk := false, dvcAddOk := fun _ => false,
    gitTags := [], gitTagListOk := true, snapshots := [], gitHead := "commit0",
    gitCheckoutOk := fun _ => false, gitRevParseOk := true,
    gitCommitHash := "abc123", gitTagOk := fun _ => true, rawDataCsvs := [],
    processedDirFiles := [], modelDirFiles := [], corruptFn := fun _ c => c,
    shapeOf := fun _ => (0, 0), csvReadOk := fun _ => true }

/-- Concrete metadata for the snapshot tagged v1. -/
def metaV1 : SnapshotMeta :=
  { version := "v1", timestamp := 0, description := "snap",
    git_commit := some "c0", dvc_files := [] }

/-- A model-degradation incident whose backup and DVC tiers both fail. -/
def incC2 : Incident :=
  { itype := some "model_degradation", subtype := some "delete",
    timestamp := some 0, affected_file := some "models/m.joblib",
    backup_path := some "models/m.joblib.backup", marker_file := none,
    status := "active", error := none, original_shape := none,
    corrupted_shape := none }

/-- A world with one snapshot available for restoring. -/
def worldC2 : World := { baseWorld with gitTags := ["v1"], snapshots := [("v1", metaV1)] }

/-- C2 counterexample: a model-degradation incident whose backup and DVC
tiers fail is not recovered by a snapshot restore even though a snapshot
exists: recovery runs no external command at all and reports failure. -/
theorem model_degradation_skips_snapshot_restore :
    listSnapshots worldC2 = [metaV1] ∧
    (recoverFromIncident incC2 none worldC2 0 1).1.status = "failed" ∧
    (recoverFromIncident incC2 none worldC2 0 1).1.error =
      some "All recovery strategies failed" ∧
    (recoverFromIncident incC2 none worldC2 0 1).2.2 = [] := by
  refine ⟨by decide, ?_, ?_, ?_⟩ <;> rfl

theorem loadSnapshotMetadata_mem (w : World) (tg : String) (m : SnapshotMeta)
    (h : loadSnapshotMetadata w tg = some m) : (tg, m) ∈ w.snapshots := by
  unfold loadSnapshotMetadata at h
  obtain ⟨ts, hfind, hts⟩ := Option.map_eq_some'.mp h
  have hmem := List.mem_of_find?_eq_some hfind
  have hpred := List.find?_some hfind
  have h1 : ts.1 = tg := eq_of_beq hpred
  have : ts = (tg, m) := by
    rcases ts with ⟨t1, t2⟩
    simp_all
  rw [← this]
  exact hmem

theorem listSnapshots_load (w : World) (m : SnapshotMeta)
    (hwf : ∀ p ∈ w.snapshots, p.2.version = p.1)
    (hm : m ∈ listSnapshots w) : loadSnapshotMetadata w m.version = some m := by
  unfold listSnapshots at hm
  split at hm
  · obtain ⟨tg, _, htg⟩ := List.mem_filterMap.mp hm
    have htg' : loadSnapshotMetadata w tg = some m := by
      by_cases he : tg = ""
      · rw [if_pos he] at htg
        cases htg
      · rwa [if_neg he] at htg
    have hver : m.version = tg := hwf (tg, m) (loadSnapshotMetadata_mem w tg m htg')
    rw [hver]
    exact htg'
  · cases hm

theorem restoreSnapshot_dataOnly (w : World) (tag : String) (m : SnapshotMeta)
    (h : loadSnapshotMetadata w tag = some m) :
    restoreSnapshot w tag true false false =
      (true, (dvcCheckoutCmd w ".").2, [Act.dvcPull, Act.dvcCheckout "."]) := by
  unfold restoreSnapshot
  rw [h]
  simp

theorem dvcCheckoutCmd_gitHead (w : World) (t : String) :
    (dvcCheckoutCmd w t).2.gitHead = w.gitHead := by
  unfold dvcCheckoutCmd
  repeat' split
  all_goals rfl

/-- C3 amended: when the first two data-corruption strategies fail and at
least one snapshot is listed, recovery restores to the last listed snapshot
by running a DVC pull and a full DVC checkout (bringing back the
DVC-tracked data and model contents); the git checkout step is skipped
because restore_snapshot is invoked with restore_code=False, so the code
state is left unchanged, and the recovery reports success with
restored_version set to that snapshot. -/
theorem snapshot_restore_is_data_only (inc : Incident) (tv : Option String)
    (w : World) (t0 t1 : Nat) (af bp : String) (latest : SnapshotMeta)
    (hty : inc.itype = some "data_corruption")
    (haf : inc.affected_file = some af) (haf1 : af ≠ "")
    (hbp : inc.backup_path = some bp) (hbp1 : bp ≠ "") (hbp2 : bp ≠ ".")
    (hlook : w.fs.lookup bp = none)
    (hdvc : w.dvcCheckoutOk (af ++ ".dvc") = false)
    (hwf : ∀ p ∈ w.snapshots, p.2.version = p.1)
    (hlast : (listSnapshots w).getLast? = some latest) :
    (recoverFromIncident inc tv w t0 t1).1.status = "success" ∧
    (recoverFromIncident inc tv w t0 t1).1.actions_taken = ["full_data_restore"] ∧
    (recoverFromIncident inc tv w t0 t1).1.restored_version = some latest.version ∧
    (recoverFromIncident inc tv w t0 t1).2.2 =
      [Act.dvcCheckout (af ++ ".dvc"), Act.dvcPull, Act.dvcCheckout "."] ∧
    (recoverFromIncident inc tv w t0 t1).2.1 = (dvcCheckoutCmd w ".").2 ∧
    (recoverFromIncident inc tv w t0 t1).2.1.gitHead = w.gitHead := by
  have hmem : latest ∈ listSnapshots w := by
    obtain ⟨hne, hh⟩ := List.mem_getLast?_eq_getLast (Option.mem_def.mpr hlast)
    rw [hh]
    exact List.getLast_mem hne
  have hload := listSnapshots_load w latest hwf hmem
  have hrs := restoreSnapshot_dataOnly w latest.version latest hload
  have hdd := recoverDataCorruption_snapshot inc (initResult inc t0) w af bp latest
    haf haf1 hbp hbp1 hbp2 hlook hdvc hlast
  rw [hrs] at hdd
  simp only [eq_self_iff_true, if_true] at hdd
  have hdisp := recoveryDispatch_data inc (initResult inc t0) w hty
  rw [hdd] at hdisp
  refine ⟨?_, ?_, ?_, ?_, ?_, ?_⟩ <;>
    simp only [recoverFromIncident, hdisp] <;>
    simp [initResult, dvcCheckoutCmd_gitHead]

/-- A data-corruption incident whose backup and single-file DVC checkout
tiers fail, in a world with one snapshot. -/
def incC3 : Incident :=
  { itype := some "data_corruption", subtype := some "random",
    timestamp := some 0, affected_file := some "data/d.csv",
    backup_path := some "gone.backup", marker_file := none,
    status := "active", error := none, original_shape := none,
    corrupted_shape := none }

/-- A world where only the full DVC checkout succeeds and snapshot v1 is
listed. -/
def worldC3 : World :=
  { baseWorld with
    gitTags := ["v1"]
    snapshots := [("v1", metaV1)]
    dvcCheckoutOk := fun t => t == "."
    dvcCache := [("data/d.csv", "orig")] }

/-- C3 counterexample: the third-tier snapshot restore succeeds and brings
back the DVC-tracked data, but runs no git checkout: the code state is left
at its pre-restore commit, so the snapshot's code is not restored. -/
theorem snapshot_restore_leaves_code_unrestored :
    (recoverFromIncident incC3 none worldC3 0 1).1.status = "success" ∧
    (recoverFromIncident incC3 none worldC3 0 1).1.actions_taken =
      ["full_data_restore"] ∧
    (recoverFromIncident incC3 none worldC3 0 1).2.2 =
      [Act.dvcCheckout "data/d.csv.dvc", Act.dvcPull, Act.dvcCheckout "."] ∧
    (recoverFromIncident incC3 none worldC3 0 1).2.1.fs.lookup "data/d.csv" =
      some "orig" ∧
    (recoverFromIncident incC3 none worldC3 0 1).2.1.gitHead = "commit0" ∧
    worldC3.gitHead = "commit0" := by
  refine ⟨?_, ?_, ?_, ?_, ?_, ?_⟩ <;> rfl

/-- C9 amended: restore_snapshot never raises, and it returns False exactly
when the metadata file is missing or (when code restore is requested) the
git checkout fails; failures of the DVC pull and DVC checkout are caught
inside DVCManager and their results ignored, so they never make
restore_snapshot return False. -/
theorem restore_snapshot_false_iff (w : World) (tag : String) (rd rm rc : Bool) :
    (restoreSnapshot w tag rd rm rc).1 = false ↔
      (loadSnapshotMetadata w tag = none ∨
        (rc = true ∧ w.gitCheckoutOk tag = false)) := by
  unfold restoreSnapshot
  rcases h : loadSnapshotMetadata w tag with _ | m
  · simp
  · simp only [h]
    cases rc
    · cases rd <;> cases rm <;> simp
    · cases hg : w.gitCheckoutOk tag
      · simp [hg]
      · cases rd <;> cases rm <;> simp [hg]

/-- A world with snapshot v1 whose git checkout succeeds but whose DVC pull
and checkout commands all fail. -/
def worldC9 : World :=
  { baseWorld with
    snapshots := [("v1", metaV1)]
    gitCheckoutOk := fun _ => true }

/-- C9 counterexample: restore_snapshot returns True even though the DVC
pull and DVC checkout steps both fail, contradicting the claim that a
failing DVC pull/checkout step makes it return False. -/
theorem restore_snapshot_true_despite_dvc_failure :
    (restoreSnapshot worldC9 "v1" true true true).1 = true ∧
    worldC9.dvcPullOk = false ∧
    worldC9.dvcCheckoutOk "." = false :=
  ⟨rfl, rfl, rfl⟩

theorem addLoop_spec (w : World) (files : List String) (acc : List String)
    (tr : List Act) :
    addLoop w files acc tr =
      (acc ++ files.filter w.dvcAddOk, tr ++ files.map Act.dvcAdd) := by
  induction files generalizing acc tr with
  | nil => simp [addLoop]
  | cons f rest ih =>
    unfold addLoop
    by_cases h : w.dvcAddOk f = true
    · rw [if_pos h, ih]
      simp [List.filter_cons, h]
    · rw [if_neg h, ih]
      simp only [Bool.not_eq_true] at h
      simp [List.filter_cons, h]

/-- C6: create_snapshot runs, in order, a DVC add for every raw CSV,
processed CSV and trained-model file, then the git commit, the commit-hash
read, the git tag named by the version tag, the DVC push, and the metadata
save; the returned snapshot info records the git commit hash and exactly
the files whose DVC add succeeded, in iteration order. -/
theorem create_snapshot_order (w : World) (vt desc : String) (t : Nat)
    (hrev : w.gitRevParseOk = true) :
    ∃ info w', createSnapshot w vt desc true true t =
      .ok (info, w',
        ((dataSectionFiles w ++ modelSectionFiles w).map Act.dvcAdd) ++
        [Act.gitCommit (vt ++ ": " ++ desc), Act.gitRevParse, Act.gitTag vt,
         Act.dvcPush, Act.saveMeta vt]) ∧
      info.dvc_files = (dataSectionFiles w ++ modelSectionFiles w).filter w.dvcAddOk ∧
      info.git_commit = some w.gitCommitHash ∧
      info.version = vt := by
  unfold createSnapshot
  simp only [if_true, addLoop_spec, List.nil_append, if_pos hrev,
    List.map_append, List.filter_append, List.append_assoc,
    List.singleton_append, List.cons_append]
  refine ⟨_, _, rfl, ?_, ?_, ?_⟩ <;> rfl

theorem runSteps_none_eq (f : Nat → Option String) :
    ∀ (es : List PEvent) (i : Nat),
      (runSteps f i es).2 = none → (runSteps f i es).1 = es := by
  intro es
  induction es with
  | nil => intro i _; rfl
  | cons e rest ih =>
    intro i h
    rcases hf : f i with _ | msg
    · have h' : (runSteps f (i + 1) rest).2 = none := by
        unfold runSteps at h
        rw [hf] at h
        exact h
      unfold runSteps
      rw [hf]
      simp only []
      rw [ih (i + 1) h']
    · exfalso
      unfold runSteps at h
      rw [hf] at h
      simp at h

/-- C7: the training pipeline executes its operations in the fixed source
order (loads, parameter logging, model init, training, cross-validation,
metric logging, evaluation, model saving, DVC add, run info, FINISHED run
end, exactly as listed in pipelineSteps); when some operation raises, the
tracker run is ended with status FAILED and the exception propagates as
the returned error. -/
theorem train_pipeline_order (f : Nat → Option String) (pd mp : String) :
    ((trainPipelineMain f pd mp).2 = none →
      (trainPipelineMain f pd mp).1 = pipelineSteps pd mp ∧
      (trainPipelineMain f pd mp).1.getLast? = some (PEvent.endRun "FINISHED")) ∧
    (∀ msg, (trainPipelineMain f pd mp).2 = some msg →
      (trainPipelineMain f pd mp).1.getLast? = some (PEvent.endRun "FAILED")) := by
  constructor
  · intro h
    rcases hr : runSteps f 0 (pipelineSteps pd mp) with ⟨tr, err⟩
    rcases err with _ | msg
    · have htr : tr = pipelineSteps pd mp := by
        have h2 := runSteps_none_eq f (pipelineSteps pd mp) 0 (by rw [hr])
        rw [hr] at h2
        exact h2
      unfold trainPipelineMain
      rw [hr]
      subst htr
      exact ⟨rfl, rfl⟩
    · exfalso
      unfold trainPipelineMain at h
      rw [hr] at h
      simp at h
  · intro msg h
    rcases hr : runSteps f 0 (pipelineSteps pd mp) with ⟨tr, err⟩
    rcases err with _ | m
    · exfalso
      unfold trainPipelineMain at h
      rw [hr] at h
      simp at h
    · unfold trainPipelineMain
      rw [hr]
      simp only []
      exact List.getLast?_concat tr

/-- A data-corruption incident whose backup file exists. -/
def incC1 : Incident :=
  { itype := some "data_corruption", subtype := some "random",
    timestamp := some 0, affected_file := some "f.csv",
    backup_path := some "f.csv.backup", marker_file := none,
    status := "active", error := none, original_shape := none,
    corrupted_shape := none }

/-- A world whose file system holds the backup of f.csv. -/
def worldC1 : World := { baseWorld with fs := ⟨[("f.csv.backup", "orig")]⟩ }

theorem data_corruption_recovery_chain_witness :
    (recoverFromIncident incC1 none worldC1 0 1).1.status = "success" ∧
    (recoverFromIncident incC1 none worldC1 0 1).1.actions_taken =
      ["restored_from_backup"] :=
  ⟨((data_corruption_recovery_chain incC1 none worldC1 0 1 "f.csv" "f.csv.backup"
      rfl rfl (by decide) (by decide) rfl (by decide) (by decide)).1 "orig" rfl).1,
   ((data_corruption_recovery_chain incC1 none worldC1 0 1 "f.csv" "f.csv.backup"
      rfl rfl (by decide) (by decide) rfl (by decide) (by decide)).1 "orig" rfl).2.1⟩

/-- A pipeline-failure incident with a marker file. -/
def incPipe : Incident :=
  { itype := some "pipeline_failure", subtype := some "preprocessing",
    timestamp := some 0, affected_file := none, backup_path := none,
    marker_file := some ".incident_markers/pipeline_failure_preprocessing.marker",
    status := "active", error := none, original_shape := none,
    corrupted_shape := none }

theorem recovery_chain_only_for_data_corruption_witness :
    (recoverFromIncident incC2 none worldC2 0 1).1.status = "failed" ∧
    (recoverFromIncident incPipe none worldC2 0 1).1.status = "success" :=
  ⟨(recovery_chain_only_for_data_corruption incC2 none worldC2 0 1
      "models/m.joblib" "models/m.joblib.backup" rfl rfl (by decide) rfl
      (by decide) (by decide) rfl rfl).1.1,
   ((recovery_chain_only_for_data_corruption incC2 none worldC2 0 1
      "models/m.joblib" "models/m.joblib.backup" rfl rfl (by decide) rfl
      (by decide) (by decide) rfl rfl).2 incPipe
      ".incident_markers/pipeline_failure_preprocessing.marker" rfl rfl
      (by decide) (by decide)).1⟩

theorem snapshot_restore_is_data_only_witness :
    (recoverFromIncident incC3 none worldC3 0 1).1.status = "success" ∧
    (recoverFromIncident incC3 none worldC3 0 1).2.1.gitHead = worldC3.gitHead :=
  ⟨(snapshot_restore_is_data_only incC3 none worldC3 0 1 "data/d.csv"
      "gone.backup" metaV1 rfl rfl (by decide) rfl (by decide) (by decide)
      rfl rfl (by decide) rfl).1,
   (snapshot_restore_is_data_only incC3 none worldC3 0 1 "data/d.csv"
      "gone.backup" metaV1 rfl rfl (by decide) rfl (by decide) (by decide)
      rfl rfl (by decide) rfl).2.2.2.2.2⟩

/-- An incident with an unrecognized type. -/
def incUnknown : Incident :=
  { itype := some "disk_full", subtype := none, timestamp := some 0,
    affected_file := none, backup_path := none, marker_file := none,
    status := "active", error := none, original_shape := none,
    corrupted_shape := none }

/-- A data-corruption incident dictionary missing the affected_file key. -/
def incNoFile : Incident :=
  { itype := some "data_corruption", subtype := some "random",
    timestamp := some 0, affected_file := none, backup_path := none,
    marker_file := none, status := "active", error := none,
    original_shape := none, corrupted_shape := none }

theorem recover_total_error_handling_witness :
    ((recoverFromIncident incUnknown none baseWorld 0 1).1.status =
        "unknown_incident_type" ∧
      (recoverFromIncident incUnknown none baseWorld 0 1).1.actions_taken = []) ∧
    ((recoverFromIncident incNoFile none baseWorld 0 1).1.status = "failed" ∧
      (recoverFromIncident incNoFile none baseWorld 0 1).1.error =
        some "KeyError: affected_file") :=
  ⟨(recover_total_error_handling incUnknown none baseWorld 0 1).2.2.2.2
      (by decide) (by decide) (by decide),
   (recover_total_error_handling incNoFile none baseWorld 0 1).2.2.2.1
      "KeyError: affected_file" rfl⟩

/-- A world holding the data file d.csv. -/
def worldC5 : World := { baseWorld with fs := ⟨[("d.csv", "a,b;1,2")]⟩ }

theorem corruption_then_recovery_roundtrip_witness :
    ((recoverFromIncident (simulateDataCorruption ⟨[]⟩ worldC5 "d.csv" "random" 0).1
        none (simulateDataCorruption ⟨[]⟩ worldC5 "d.csv" "random" 0).2.2 0 1).2.1).fs.lookup
      (pathStr "d.csv") = worldC5.fs.lookup (pathStr "d.csv") :=
  corruption_then_recovery_roundtrip ⟨[]⟩ worldC5 "d.csv" "random" 0 0 1 none rfl

/-- A world with one raw CSV and one trained model for snapshotting. -/
def worldC6 : World :=
  { baseWorld with
    rawDataCsvs := ["data/raw/a.csv", "data/raw/b.csv"]
    modelDirFiles := [("m1", ["models/m1/model.joblib"])]
    dvcAddOk := fun p => p != "data/raw/b.csv" }

theorem create_snapshot_order_witness :
    ∃ info w', createSnapshot worldC6 "v1" "first" true true 0 =
      .ok (info, w',
        ((dataSectionFiles worldC6 ++ modelSectionFiles worldC6).map Act.dvcAdd) ++
        [Act.gitCommit ("v1" ++ ": " ++ "first"), Act.gitRevParse, Act.gitTag "v1",
         Act.dvcPush, Act.saveMeta "v1"]) ∧
      info.dvc_files =
        (dataSectionFiles worldC6 ++ modelSectionFiles worldC6).filter worldC6.dvcAddOk ∧
      info.git_commit = some worldC6.gitCommitHash ∧
      info.version = "v1" :=
  create_snapshot_order worldC6 "v1" "first" 0 rfl

theorem train_pipeline_order_witness :
    (trainPipelineMain (fun _ => none) "proc/v1" "models/m.joblib").1 =
      pipelineSteps "proc/v1" "models/m.joblib" ∧
    (trainPipelineMain (fun i => if i = 3 then some "boom" else none)
        "proc/v1" "models/m.joblib").1.getLast? = some (PEvent.endRun "FAILED") :=
  ⟨((train_pipeline_order (fun _ => none) "proc/v1" "models/m.joblib").1 rfl).1,
   (train_pipeline_order (fun i => if i = 3 then some "boom" else none)
      "proc/v1" "models/m.joblib").2 "boom" rfl⟩

theorem incident_log_active_invariant_witness :
    (simulatePipelineFailure ⟨[]⟩ baseWorld "preprocessing" 0).1.status = "active" ∧
    (simulatePipelineFailure ⟨[]⟩ baseWorld "preprocessing" 0).2.1.incident_log =
      [] ++ [(simulatePipelineFailure ⟨[]⟩ baseWorld "preprocessing" 0).1] :=
  ⟨(incident_log_active_invariant ⟨[]⟩ baseWorld "d.csv" "random" "m.joblib"
      "delete" "preprocessing" 0 (by simp)).2.2.1.1,
   (incident_log_active_invariant ⟨[]⟩ baseWorld "d.csv" "random" "m.joblib"
      "delete" "preprocessing" 0 (by simp)).2.2.1.2.1⟩

end MLOps
